import Mathlib

/-!
Verification of the dmx music search/download tool against its
natural-language specification.

The Python sources under src/dmx are shallowly embedded below:
pure helpers become Lean functions; methods that talk to the network, the
filesystem or the deemix backend become functions over an explicit
environment record whose fields stand for the observable answers of those
collaborators.  Strings are modelled as List Char; machine integers are
Nat / Int (Python integers are unbounded, so no wrap-around is modelled).
-/

namespace Dmx

/-! ### Quality codes and the fallback tier list (deemix_client.py) -/

/-- Embeds DeemixClient._quality_to_code (deemix_client.py:75-78):
a dict lookup {"128": 1, "320": 3, "FLAC": 9} defaulting to 3. -/
def qualityToCode (quality : String) : Nat :=
  if quality = "128" then 1
  else if quality = "320" then 3
  else if quality = "FLAC" then 9
  else 3

/-- Embeds the tier-list construction in DeemixClient._attempt_download
(deemix_client.py:393-396): qualities = [3, 1]; if the configured
maxBitrate is not already in that list it is inserted at position 0. -/
def attemptQualities (maxBitrate : Nat) : List Nat :=
  if maxBitrate = 3 ∨ maxBitrate = 1 then [3, 1] else maxBitrate :: [3, 1]

/-- Modelled from the spec: "an ordered, deduplicated list of quality
tiers starting with the configured preferred tier, followed by a fixed
descending fallback sequence (high, then low)" - the preferred tier first,
then 3 (320kbps) and 1 (128kbps) with duplicates of the preferred tier
removed.  Used only to compare the spec's wording with the code. -/
def specQualityOrder (preferred : Nat) : List Nat :=
  preferred :: ([3, 1].filter (fun c => c ≠ preferred))

/-- Outcome of one tier's try-block in DeemixClient._try_quality
(deemix_client.py:421-456), as observed from the backend:
the download object generation may yield nothing (falsy), the download
may run and then verification of new files succeeds or not, or an
exception is raised whose message is or is not quality/bitrate related. -/
inductive TryOutcome where
  | noObject : TryOutcome
  | ran (verified : Bool) : TryOutcome
  | raised (qualityRelated : Bool) : TryOutcome
deriving DecidableEq

/-- Embeds DeemixClient._try_quality (deemix_client.py:412-458).
Note that in the source BOTH branches of the except-handler return False
(lines 449-456): a quality-related message and any other exception alike
make the method return False to the caller's loop. -/
def tryQuality (backend : Nat → TryOutcome) (code : Nat) : Bool :=
  match backend code with
  | .noObject => false
  | .ran verified => verified
  | .raised qualityRelated =>
      if qualityRelated then false else false

/-- Embeds the loop of DeemixClient._attempt_download
(deemix_client.py:398-410): walk the tier list in order, stop at the
first tier for which _try_quality returns True.  Also records the list
of tier codes actually tried, in order. -/
def attemptLoop (backend : Nat → TryOutcome) : List Nat → Bool × List Nat
  | [] => (false, [])
  | code :: rest =>
      if tryQuality backend code then (true, [code])
      else
        let r := attemptLoop backend rest
        (r.1, code :: r.2)

/-- Embeds DeemixClient._attempt_download (deemix_client.py:389-410):
build the tier list from the configured maxBitrate, then run the loop. -/
def attemptDownload (backend : Nat → TryOutcome) (maxBitrate : Nat) :
    Bool × List Nat :=
  attemptLoop backend (attemptQualities maxBitrate)

/-- A backend whose answer at the 320kbps tier (code 3) is an exception
that is NOT quality/bitrate related, and whose answer at the 128kbps
tier (code 1) is a verified successful download. -/
def c1Backend : Nat → TryOutcome := fun code =>
  if code = 3 then .raised false
  else if code = 1 then .ran true
  else .noObject

/-! ### Decimal rendering and duration formatting
(api_client.py:243-251, deemix_client.py:230-236) -/

/-- The decimal digit character for n < 10 (codepoints 48..57). -/
def digitChar (n : Nat) : Char := Char.ofNat (48 + n)

/-- Fuel-driven accumulator loop producing the decimal digits of n, most
significant first, mirroring how Python str(int) renders a non-negative
integer.  The fuel argument only bounds the recursion; natStr always
passes enough of it. -/
def natStrAux : Nat → Nat → List Char → List Char
  | 0, _, acc => acc
  | fuel + 1, n, acc =>
      if n < 10 then digitChar n :: acc
      else natStrAux fuel (n / 10) (digitChar (n % 10) :: acc)

/-- Decimal rendering of a natural number, as Python's str(int) does for
non-negative values. -/
def natStr (n : Nat) : List Char := natStrAux (n + 1) n []

/-- Python's format spec 02d applied to a non-negative integer: pad with
one leading zero when the number has a single digit. -/
def pad2 (n : Nat) : List Char :=
  if n < 10 then '0' :: natStr n else natStr n

/-- The minutes:seconds rendering shared by both backends' formatters:
str(minutes) followed by a colon and the two-digit-padded seconds. -/
def renderMinSec (minutes seconds : Nat) : List Char :=
  natStr minutes ++ ':' :: pad2 seconds

/-- The string "0:00" as a character list. -/
def zeroDuration : List Char := ['0', ':', '0', '0']

/-- Embeds DeemixClient._format_duration (deemix_client.py:230-236): the
argument is a count of seconds (the download backend's unit); a falsy
value (absent/None or 0) renders as "0:00", otherwise minutes = s // 60
and seconds = s % 60 are rendered. -/
def deemixFormatDuration (d : Option Nat) : List Char :=
  match d with
  | none => zeroDuration
  | some s => if s = 0 then zeroDuration else renderMinSec (s / 60) (s % 60)

/-- Embeds APIClient._format_duration (api_client.py:243-251): the
argument is a count of milliseconds (the metadata backend's unit); a
falsy value renders as "0:00", otherwise it is floor-divided by 1000
into seconds and rendered as minutes:seconds. -/
def apiFormatDuration (d : Option Nat) : List Char :=
  match d with
  | none => zeroDuration
  | some ms =>
      if ms = 0 then zeroDuration
      else renderMinSec (ms / 1000 / 60) (ms / 1000 % 60)

/-- The length of natStrAux's output grows by at least one over the
accumulator whenever there is fuel. -/
theorem natStrAux_length (fuel n : Nat) (acc : List Char) (h : 0 < fuel) :
    acc.length + 1 ≤ (natStrAux fuel n acc).length := by
  induction fuel generalizing n acc with
  | zero => omega
  | succ fuel ih =>
      rw [natStrAux]
      by_cases hn : n < 10
      · simp [hn]
      · simp only [if_neg hn]
        rcases Nat.eq_zero_or_pos fuel with hf | hf
        · subst hf; simp [natStrAux]
        · have h2 := ih (n / 10) (digitChar (n % 10) :: acc) hf
          simp only [List.length_cons] at h2
          omega

/-- natStr never returns the empty list. -/
theorem natStr_length_pos (n : Nat) : 1 ≤ (natStr n).length := by
  have := natStrAux_length (n + 1) n [] (by omega)
  simpa [natStr] using this

/-- natStr renders to the single character list ['0'] exactly at 0. -/
theorem natStr_eq_zero_iff (n : Nat) : natStr n = ['0'] ↔ n = 0 := by
  constructor
  · intro h
    by_contra hne
    by_cases hn : n < 10
    · have h10 : natStr n = [digitChar n] := by
        simp [natStr, natStrAux, hn]
      rw [h10] at h
      have : digitChar n = '0' := by simpa using h
      interval_cases n <;> simp_all [digitChar]
    · have h2 : 2 ≤ (natStr n).length := by
        have hstep : natStr n =
            natStrAux n (n / 10) [digitChar (n % 10)] := by
          simp [natStr, natStrAux, hn]
        have := natStrAux_length n (n / 10) [digitChar (n % 10)] (by omega)
        rw [hstep]
        simpa using this
      rw [h] at h2
      simp at h2
  · intro h; subst h; decide

/-- For seconds values below 60, the two-digit padding renders to "00"
exactly at 0. -/
theorem pad2_eq_zero_iff : ∀ r < 60, (pad2 r = ['0', '0']) = (r = 0) := by
  decide

/-- A rendered minutes:seconds string with an in-range seconds part is
"0:00" exactly when both components are zero. -/
theorem renderMinSec_eq_zero_iff (m r : Nat) (hr : r < 60) :
    renderMinSec m r = zeroDuration ↔ m = 0 ∧ r = 0 := by
  constructor
  · intro h
    have hplen : (pad2 r).length = 2 := by
      revert hr
      have : ∀ r < 60, (pad2 r).length = 2 := by decide
      exact this r
    have hmlen : (natStr m).length = 1 := by
      have htot := congrArg List.length h
      simp [renderMinSec, zeroDuration] at htot
      omega
    obtain ⟨c, hc⟩ := List.length_eq_one.mp hmlen
    rw [renderMinSec, hc] at h
    obtain ⟨a, b, hab⟩ := List.length_eq_two.mp hplen
    rw [hab] at h
    simp [zeroDuration] at h
    obtain ⟨hc0, ha, hb⟩ := h
    have hm : m = 0 := (natStr_eq_zero_iff m).mp (by rw [hc, hc0])
    have hr0 : r = 0 := by
      have := pad2_eq_zero_iff r hr
      rw [← this, hab, ha, hb]
    exact ⟨hm, hr0⟩
  · rintro ⟨hm, hr0⟩
    subst hm; subst hr0; decide

/-- The minutes/seconds decomposition of a seconds count renders to
"0:00" exactly when the count is zero. -/
theorem renderSeconds_eq_zero_iff (s : Nat) :
    renderMinSec (s / 60) (s % 60) = zeroDuration ↔ s = 0 := by
  rw [renderMinSec_eq_zero_iff _ _ (Nat.mod_lt _ (by omega))]
  omega

/-- C3 counterexample: a 500-millisecond duration is neither zero nor
absent, yet the metadata backend's formatter returns "0:00" for it -
the claimed "0:00 iff zero or absent" biconditional fails. -/
theorem c3_nonzero_renders_zero :
    apiFormatDuration (some 500) = zeroDuration ∧ (500 : Nat) ≠ 0 := by
  decide

/-- C3 amended: for the download backend (seconds unit) the formatter
returns "0:00" exactly for a zero or absent duration and otherwise the
minutes:seconds rendering with two-digit-padded seconds; for the
metadata backend (milliseconds unit) "0:00" is returned exactly for an
absent duration or one below 1000 ms (whose converted seconds count is
zero), and otherwise the rendering of the converted seconds count. -/
theorem c3_duration_formatting :
    (∀ d : Option Nat,
      deemixFormatDuration d = zeroDuration ↔ d = none ∨ d = some 0) ∧
    (∀ s : Nat, s ≠ 0 →
      deemixFormatDuration (some s) = renderMinSec (s / 60) (s % 60)) ∧
    (∀ d : Option Nat,
      apiFormatDuration d = zeroDuration ↔
        d = none ∨ ∃ ms, d = some ms ∧ ms < 1000) ∧
    (∀ ms : Nat, ms ≠ 0 →
      apiFormatDuration (some ms) =
        renderMinSec (ms / 1000 / 60) (ms / 1000 % 60)) := by
  refine ⟨?_, ?_, ?_, ?_⟩
  · rintro (_ | s)
    · simp [deemixFormatDuration]
    · by_cases hs : s = 0
      · subst hs; simp [deemixFormatDuration]
      · simp only [deemixFormatDuration, if_neg hs]
        rw [renderSeconds_eq_zero_iff]
        simp [hs]
  · intro s hs
    simp [deemixFormatDuration, hs]
  · rintro (_ | ms)
    · simp [apiFormatDuration]
    · by_cases hm : ms = 0
      · subst hm; simp [apiFormatDuration]
      · simp only [apiFormatDuration, if_neg hm]
        rw [renderSeconds_eq_zero_iff]
        rw [Nat.div_eq_zero_iff (by omega)]
        simp [hm]
  · intro ms hm
    simp [apiFormatDuration, hm]

/-- C3 witness: the amended formatter facts applied at 90 seconds,
90000 milliseconds and 1500 milliseconds. -/
theorem c3_duration_formatting_witness :
    deemixFormatDuration (some 90) = renderMinSec (90 / 60) (90 % 60) ∧
    apiFormatDuration (some 90000) =
      renderMinSec (90000 / 1000 / 60) (90000 / 1000 % 60) ∧
    (apiFormatDuration (some 1500) = zeroDuration ↔
      (some 1500 : Option Nat) = none ∨
        ∃ ms, (some 1500 : Option Nat) = some ms ∧ ms < 1000) :=
  ⟨c3_duration_formatting.2.1 90 (by decide),
   c3_duration_formatting.2.2.2 90000 (by decide),
   c3_duration_formatting.2.2.1 (some 1500)⟩

/-! ### Selection parsing (interactive.py:566-621) -/

/-- ASCII whitespace as stripped by Python's str.strip (space, tab,
newline, carriage return, vertical tab, form feed); the parser's inputs
are ASCII command lines, so the Unicode cases are not modelled. -/
def isPySpace (c : Char) : Bool :=
  c = ' ' || c = '\t' || c = '\n' || c = '\r' ||
    c = Char.ofNat 11 || c = Char.ofNat 12

/-- Python str.strip(): drop leading and trailing whitespace. -/
def pyStrip (s : List Char) : List Char :=
  ((s.dropWhile isPySpace).reverse.dropWhile isPySpace).reverse

/-- Python str.lower() over the ASCII range. -/
def pyLower (s : List Char) : List Char := s.map Char.toLower

/-- Numeric value of a decimal digit character. -/
def digitVal (c : Char) : Nat := c.toNat - 48

/-- The natural number denoted by a list of decimal digits. -/
def digitsToNat (s : List Char) : Nat :=
  s.foldl (fun a c => 10 * a + digitVal c) 0

/-- Python int(str) as it can behave on text drawn from the selection
character class (digits, commas, hyphens, whitespace, with commas split
away and any hyphen consumed by the range branch): surrounding
whitespace is ignored and the remainder must be one or more digits,
otherwise a ValueError (None here) results. -/
def pyIntDigits (s : List Char) : Option Nat :=
  if pyStrip s ≠ [] ∧ (pyStrip s).all Char.isDigit then
    some (digitsToNat (pyStrip s))
  else none

/-- Embeds the regular-expression gate of _parse_selection_input
(interactive.py:590): the whole input must be non-empty and drawn from
digits, commas, hyphens and whitespace. -/
def selectionClassOK (s : List Char) : Bool :=
  !s.isEmpty && s.all (fun c => c.isDigit || c = ',' || c = '-' || isPySpace c)

/-- Embeds the per-part loop body of _parse_selection_input
(interactive.py:597-615): strip the part; if it has a hyphen, split at
the first hyphen into start and end (split with maxsplit 1 always gives
two pieces here, so the length-2 check in the source always passes),
parse both as integers and require start ≤ end, producing the inclusive
range; otherwise parse the single integer.  Any parse failure or a
descending range rejects the whole expression. -/
def parsePart (p : List Char) : Option (List Nat) :=
  if (pyStrip p).contains '-' then
    match pyIntDigits ((pyStrip p).takeWhile (fun c => c ≠ '-')),
        pyIntDigits (((pyStrip p).dropWhile (fun c => c ≠ '-')).drop 1) with
    | some st, some en =>
        if st ≤ en then some (List.range' st (en - st + 1)) else none
    | _, _ => none
  else (pyIntDigits (pyStrip p)).map (fun n => [n])

/-- Accumulates the indices contributed by each comma-separated part;
one bad part rejects everything, mirroring the shared try-block of
_parse_selection_input. -/
def collectIndices : List (List Char) → Option (List Nat)
  | [] => some []
  | p :: ps =>
      match parsePart p, collectIndices ps with
      | some xs, some rest => some (xs ++ rest)
      | _, _ => none

/-- Python sorted(list(set(l))): the distinct values in ascending
order. -/
def sortDedup (l : List Nat) : List Nat :=
  (List.insertionSort (fun a b => a ≤ b) l).dedup

/-- The non-keyword branch of _parse_selection_input
(interactive.py:589-621): the character-class gate, then the part loop,
then sorted deduplication. -/
def parseIndices (u : List Char) : Option (List Nat) :=
  if selectionClassOK u then (collectIndices (u.splitOn ',')).map sortDedup
  else none

/-- Embeds InteractiveSession._parse_selection_input
(interactive.py:566-621).  The input is stripped and lowercased; the
keywords all and * yield every index of the active scope (1..N for
scope size N, the size 0 when no scope is populated); anything else
goes through the character-class gate and the part parser. -/
def parseSelection (input : List Char) (scopeSize : Nat) : Option (List Nat) :=
  if pyLower (pyStrip input) = "all".toList ∨ pyLower (pyStrip input) = ['*']
  then some (List.range' 1 scopeSize)
  else parseIndices (pyLower (pyStrip input))

/-- sortDedup output is strictly ascending (sorted with no
duplicates). -/
theorem sortDedup_sorted (l : List Nat) :
    (sortDedup l).Sorted (· < ·) := by
  have hs : (List.insertionSort (fun a b => a ≤ b) l).Sorted (· ≤ ·) :=
    List.sorted_insertionSort _ l
  have hd : (sortDedup l).Sorted (· ≤ ·) :=
    List.Pairwise.sublist (List.dedup_sublist _) hs
  exact hd.lt_of_le (List.nodup_dedup _)

/-- C4: selection parsing returns sorted, duplicate-free 1-based index
lists: the keywords all and * yield 1..N for scope size N; the mixed
expression 1,3-5,8 yields [1, 3, 4, 5, 8]; the descending range 5-1 and
the non-matching text abc are not selections; every successful parse is
strictly ascending (sorted and duplicate-free); and any stripped,
lowercased input that is not a keyword and fails the
digits/commas/hyphens/whitespace character class is not a selection. -/
theorem c4_parse_selection :
    (∀ N, parseSelection "1,3-5,8".toList N = some [1, 3, 4, 5, 8]) ∧
    (∀ N, parseSelection "5-1".toList N = none) ∧
    (∀ N, parseSelection "abc".toList N = none) ∧
    (∀ N, parseSelection "all".toList N = some (List.range' 1 N) ∧
      parseSelection "*".toList N = some (List.range' 1 N)) ∧
    (∀ input N xs, parseSelection input N = some xs →
      xs.Sorted (· < ·)) ∧
    (∀ input N, pyLower (pyStrip input) ≠ "all".toList →
      pyLower (pyStrip input) ≠ ['*'] →
      selectionClassOK (pyLower (pyStrip input)) = false →
      parseSelection input N = none) := by
  refine ⟨fun _ => rfl, fun _ => rfl, fun _ => rfl,
    fun _ => ⟨rfl, rfl⟩, ?_, ?_⟩
  · intro input N xs h
    unfold parseSelection at h
    split at h
    · injection h with h'
      subst h'
      simpa using List.pairwise_lt_range' 1 N
    · unfold parseIndices at h
      split at h
      · rw [Option.map_eq_some'] at h
        obtain ⟨l, _, hl⟩ := h
        subst hl
        exact sortDedup_sorted l
      · exact absurd h (by simp)
  · intro input N h1 h2 h3
    have h1l : pyLower (pyStrip input) ≠ ['a', 'l', 'l'] := by
      simpa using h1
    simp [parseSelection, parseIndices, h1l, h2, h3]

/-- C4 witness: the sortedness fact applied to the parse of 1,3-5,8 at
scope 9, and the not-a-selection fact applied to the input x! at
scope 3. -/
theorem c4_parse_selection_witness :
    ([1, 3, 4, 5, 8] : List Nat).Sorted (· < ·) ∧
    parseSelection "x!".toList 3 = none :=
  ⟨c4_parse_selection.2.2.2.2.1 "1,3-5,8".toList 9 [1, 3, 4, 5, 8]
      (by decide),
   c4_parse_selection.2.2.2.2.2 "x!".toList 3 (by decide) (by decide)
      (by decide)⟩

/-! ### Search fallback (music_client.py:76-155) -/

/-- Environment for one MusicClient search call.  R is the result-row
type.  primaryConfigured reflects the guard
(self.deemix_client and self.client_status) at music_client.py:79;
primaryOutcome is what the deemix search call does (raise, or return a
list); secondaryInit reflects whether _ensure_api_client leaves a
usable api_client (its own exceptions are caught and leave None,
music_client.py:50-61); secondaryOutcome is what the api search call
does.  All three search methods (search_tracks at 76-101, search_albums
at 103-128, search_artists at 130-155) have this identical control
flow, so a single embedding covers the three entity kinds. -/
structure SearchEnv (R : Type) where
  primaryConfigured : Bool
  primaryOutcome : Except Unit (List R)
  secondaryInit : Bool
  secondaryOutcome : Except Unit (List R)

/-- The fallback phase of a search (music_client.py:88-101): when the
api client initialized, issue exactly one query; a raised exception is
caught and logged; an empty or missing answer falls through to the
final empty return.  The second component counts how many queries were
issued to the secondary backend. -/
def searchSecondary {R : Type} (e : SearchEnv R) : List R × Nat :=
  if e.secondaryInit then
    match e.secondaryOutcome with
    | .ok l => if l.isEmpty then ([], 1) else (l, 1)
    | .error _ => ([], 1)
  else ([], 0)

/-- Embeds MusicClient.search_tracks (music_client.py:76-101) and its
two structurally identical siblings: try the primary (download-capable)
backend when configured, catching any exception and ignoring an empty
list, then fall back to the secondary metadata backend, and finally to
an empty list.  No branch lets an exception escape: every backend call
sits inside a try-block whose handler only logs. -/
def searchFallback {R : Type} (e : SearchEnv R) : List R × Nat :=
  if e.primaryConfigured then
    match e.primaryOutcome with
    | .ok l => if l.isEmpty then searchSecondary e else (l, 0)
    | .error _ => searchSecondary e
  else searchSecondary e

/-- C5: when the primary backend raises or returns an empty list and the
secondary client initializes, the secondary backend is queried exactly
once; when neither backend yields a non-empty list (raising, answering
empty, or being unavailable), the overall result is the empty list -
in particular both backends raising still produces [] rather than a
propagated exception; and a non-empty primary answer is returned
without consulting the secondary. -/
theorem c5_search_fallback {R : Type} (e : SearchEnv R) :
    (e.primaryConfigured = true →
      (e.primaryOutcome = .error () ∨ e.primaryOutcome = .ok []) →
      e.secondaryInit = true →
      (searchFallback e).2 = 1) ∧
    ((e.primaryConfigured = false ∨ e.primaryOutcome = .error () ∨
        e.primaryOutcome = .ok []) →
      (e.secondaryInit = false ∨ e.secondaryOutcome = .error () ∨
        e.secondaryOutcome = .ok []) →
      (searchFallback e).1 = []) ∧
    (e.primaryConfigured = true → ∀ l, e.primaryOutcome = .ok l → l ≠ [] →
      searchFallback e = (l, 0)) := by
  refine ⟨?_, ?_, ?_⟩
  · intro hp ho hs
    rcases ho with ho | ho <;>
      simp [searchFallback, searchSecondary, hp, ho, hs] <;>
      rcases e.secondaryOutcome with _ | l <;> simp <;>
      rcases l with _ | ⟨a, l⟩ <;> simp
  · intro ho hs
    have hsec : (searchSecondary e).1 = [] := by
      unfold searchSecondary
      rcases hs with hs | hs | hs
      · simp [hs]
      · rw [hs]
        split
        · rfl
        · rfl
      · rw [hs]
        split
        · rfl
        · rfl
    rcases ho with ho | ho | ho <;>
      simp [searchFallback, ho, hsec]
  · intro hp l hl hne
    simp [searchFallback, hp, hl, hne]

/-- C5 witness: a concrete environment over Nat rows where the primary
is configured but raises and the secondary initializes and answers
empty: the secondary is queried exactly once and the result is []. -/
theorem c5_search_fallback_witness :
    (searchFallback
      (⟨true, .error (), true, .ok []⟩ : SearchEnv Nat)).2 = 1 ∧
    (searchFallback
      (⟨true, .error (), true, .ok []⟩ : SearchEnv Nat)).1 = [] :=
  ⟨(c5_search_fallback ⟨true, .error (), true, .ok []⟩).1 rfl
      (Or.inl rfl) rfl,
   (c5_search_fallback ⟨true, .error (), true, .ok []⟩).2.1
      (Or.inr (Or.inl rfl)) (Or.inr (Or.inr rfl))⟩

/-! ### Existing-album short-circuit (deemix_client.py:292-363)

The source compares an integer file count against the Python float
expression expected_tracks * 0.8.  That comparison is embedded exactly:
0.8 as an IEEE-754 double is fl08Mantissa / 2^52, the product with the
integer expected_tracks is rounded to 53 significant bits (round to
nearest, ties to even), and Python's int-to-float comparison is exact,
so the check becomes an integer comparison against the rounded
numerator over 2^52. -/

/-- The mantissa numerator of 0.8 as an IEEE-754 double:
0.8 rounds to 3602879701896397 / 2^52. -/
def fl08Mantissa : Nat := 3602879701896397

/-- Fuel-driven floor of the base-2 logarithm; floorLog2 always passes
enough fuel, so the value is floor(log2 n) for every positive n. -/
def log2Aux : Nat → Nat → Nat
  | 0, _ => 0
  | fuel + 1, n => if n < 2 then 0 else log2Aux fuel (n / 2) + 1

/-- Floor of the base-2 logarithm (0 at 0). -/
def floorLog2 (n : Nat) : Nat := log2Aux (n + 1) n

/-- 2^52, the scale of fl08Mantissa. -/
def twoPow52 : Nat := 4503599627370496

/-- Round an integer numerator (over the fixed scale 2^52) to 53
significant bits, to nearest with ties to even: the IEEE-754 double
rounding performed by the multiplication expected_tracks * 0.8. -/
def roundTo53 (N : Nat) : Nat :=
  if N < 9007199254740992 then N
  else
    let sh := floorLog2 N - 52
    let q := N / 2 ^ sh
    let r := N % 2 ^ sh
    let half := 2 ^ (sh - 1)
    if half < r ∨ (r = half ∧ q % 2 = 1) then (q + 1) * 2 ^ sh
    else q * 2 ^ sh

/-- Embeds the comparison at deemix_client.py:356,
len(audio_files) >= expected_tracks * 0.8, with Python float semantics
made exact: the count times 2^52 against the correctly rounded double
product. -/
def albumThresholdMet (audioCount expectedTracks : Nat) : Bool :=
  decide (roundTo53 (expectedTracks * fl08Mantissa) ≤ audioCount * twoPow52)

/-- Environment for one DeemixClient.download call on an album URL:
availability and credential state checked at deemix_client.py:307-313,
the observable answers of the album-info fetch and of the output
directory listing used by _check_existing_album (lines 336-363), and
the value _attempt_download would produce if reached. -/
structure AlbumEnv where
  deemixAvailable : Bool
  arl : List Char
  infoFetchOk : Bool
  expectedTracks : Nat
  folderExists : Bool
  audioCount : Nat
  attemptResult : Bool

/-- Embeds DeemixClient._check_existing_album (deemix_client.py:336-363)
for an album environment: the info fetch must not raise, the
"artist - title" folder must exist, and the count of non-empty audio
files in it must meet the 80% float threshold. -/
def checkExistingAlbum (e : AlbumEnv) : Bool :=
  e.infoFetchOk && e.folderExists &&
    albumThresholdMet e.audioCount e.expectedTracks

/-- Embeds DeemixClient.download (deemix_client.py:292-320) for an album
URL: fail fast without any attempt when deemix is unavailable or the
ARL credential is empty; report success without downloading when the
existing-album check passes; otherwise run _attempt_download.  The
second component records whether the download path was invoked. -/
def downloadAlbum (e : AlbumEnv) : Bool × Bool :=
  if !e.deemixAvailable then (false, false)
  else if e.arl.isEmpty then (false, false)
  else if checkExistingAlbum e then (true, false)
  else (e.attemptResult, true)

set_option maxRecDepth 10000 in
/-- For every expected track count up to 1000, the integer ceiling
threshold of the exact 80% fraction coincides with the ceiling
threshold of the float computation the source performs. -/
theorem thresholdsAgree : ∀ n < 1001,
    (4 * n + 4) / 5 =
      (roundTo53 (n * fl08Mantissa) + (twoPow52 - 1)) / twoPow52 := by
  decide

/-- For albums of at most 1000 tracks, the source's float comparison
agrees exactly with the rational statement 4 * expected ≤ 5 * count,
that is, count ≥ 80% of expected. -/
theorem albumThresholdMet_iff (k n : Nat) (hn : n ≤ 1000) :
    albumThresholdMet k n = true ↔ 4 * n ≤ 5 * k := by
  have hpos : 0 < twoPow52 := by norm_num [twoPow52]
  have hA := Nat.div_le_iff_le_mul_add_pred (a := 4 * n + 4) (c := k)
    (show 0 < 5 by norm_num)
  have hB := Nat.div_le_iff_le_mul_add_pred
    (a := roundTo53 (n * fl08Mantissa) + (twoPow52 - 1)) (c := k) hpos
  have hEq := thresholdsAgree n (by omega)
  rw [albumThresholdMet, decide_eq_true_eq]
  simp only [twoPow52] at hB hEq ⊢
  constructor
  · intro h
    have h1 := hB.mpr (by omega)
    rw [← hEq] at h1
    have h2 := hA.mp h1
    omega
  · intro h
    have h1 := hA.mpr (by omega)
    rw [hEq] at h1
    have h2 := hB.mp h1
    omega

/-- C6: for an available, credentialed client and an existing album
folder, when the non-empty local audio files reach 80% of the
backend-reported expected track count (for any album of at most 1000
tracks) the download call reports success without invoking the
download path; below the threshold the download path is invoked and
the call's result is whatever the attempt produces. -/
theorem c6_existing_album_short_circuit (e : AlbumEnv)
    (hn : e.expectedTracks ≤ 1000)
    (hav : e.deemixAvailable = true) (harl : e.arl ≠ [])
    (hinfo : e.infoFetchOk = true) (hf : e.folderExists = true) :
    (4 * e.expectedTracks ≤ 5 * e.audioCount →
      downloadAlbum e = (true, false)) ∧
    (5 * e.audioCount < 4 * e.expectedTracks →
      downloadAlbum e = (e.attemptResult, true)) := by
  have harl' : e.arl.isEmpty = false := by
    cases h : e.arl with
    | nil => exact absurd h harl
    | cons a l => simp
  constructor
  · intro h
    have hthr : albumThresholdMet e.audioCount e.expectedTracks = true :=
      (albumThresholdMet_iff _ _ hn).mpr h
    simp [downloadAlbum, checkExistingAlbum, hav, harl', hinfo, hf, hthr]
  · intro h
    have hthr : albumThresholdMet e.audioCount e.expectedTracks = false := by
      rw [← Bool.not_eq_true]
      intro hc
      have := (albumThresholdMet_iff _ _ hn).mp hc
      omega
    simp [downloadAlbum, checkExistingAlbum, hav, harl', hinfo, hf, hthr]

/-- C6 witness: the claim's own example, an album of 10 expected tracks
with an available client: 8 local files short-circuit to success with
no download attempt, 7 local files invoke the download path. -/
theorem c6_existing_album_short_circuit_witness :
    downloadAlbum ⟨true, ['x'], true, 10, true, 8, false⟩ = (true, false) ∧
    downloadAlbum ⟨true, ['x'], true, 10, true, 7, false⟩ = (false, true) :=
  ⟨(c6_existing_album_short_circuit ⟨true, ['x'], true, 10, true, 8, false⟩
      (by norm_num) rfl (by simp) rfl rfl).1 (by norm_num),
   (c6_existing_album_short_circuit ⟨true, ['x'], true, 10, true, 7, false⟩
      (by norm_num) rfl (by simp) rfl rfl).2 (by norm_num)⟩

/-! ### Batch downloads (interactive.py:623-792) -/

/-- Outcome of one item's download inside the batch loop
(interactive.py:749-773): client.download returned True, returned
False, or raised an exception (which the loop records as a failure and
continues past). -/
inductive DlOutcome where
  | success : DlOutcome
  | failed : DlOutcome
  | raised : DlOutcome
deriving DecidableEq

/-- The record produced by one run of _download_multiple_items: the
indices attempted in download order and the per-item outcomes as
enumerated by the final summary (interactive.py:776-785). -/
structure BatchRun where
  attempts : List Nat
  successes : List Nat
  failures : List Nat
deriving DecidableEq

/-- Embeds the loop of _download_multiple_items
(interactive.py:721-773): every index of the ordered list is attempted
in turn; a True result is recorded as a success, a False result or a
raised exception as a failure, and in every case the loop continues
with the next index. -/
def runBatch (dl : Nat → DlOutcome) (order : List Nat) : BatchRun :=
  { attempts := order
    successes := order.filter (fun n => decide (dl n = .success))
    failures := order.filter (fun n => !decide (dl n = .success)) }

/-- The up-front validation predicate of _download_by_numbers
(interactive.py:631): an index is invalid when below 1 or above the
scope size. -/
def outOfRange (scopeSize n : Nat) : Bool :=
  decide (n < 1) || decide (scopeSize < n)

/-- Embeds InteractiveSession._download_by_numbers
(interactive.py:623-667) driving _download_multiple_items: validate
every index against the scope up front and abort with the list of
invalid ones when any exists; otherwise deduplicate and sort the
indices (a single survivor goes through the equivalent single-download
path), ask for confirmation when more than five items remain (declining
downloads nothing), and run the batch loop. -/
def downloadByNumbers (numbers : List Nat) (scopeSize : Nat)
    (confirm : Bool) (dl : Nat → DlOutcome) : Except (List Nat) BatchRun :=
  if !(numbers.filter (outOfRange scopeSize)).isEmpty then
    .error (numbers.filter (outOfRange scopeSize))
  else if 5 < (sortDedup numbers).length && !confirm then .ok ⟨[], [], []⟩
  else .ok (runBatch dl (sortDedup numbers))

/-- Embeds InteractiveSession._download_albums_from_artist
(interactive.py:669-713), whose validation and dispatch duplicate
_download_by_numbers over the artist-profile album scope (its
confirmation threshold is three instead of five). -/
def downloadAlbumsFromArtist (numbers : List Nat) (scopeSize : Nat)
    (confirm : Bool) (dl : Nat → DlOutcome) : Except (List Nat) BatchRun :=
  if !(numbers.filter (outOfRange scopeSize)).isEmpty then
    .error (numbers.filter (outOfRange scopeSize))
  else if 3 < (sortDedup numbers).length && !confirm then .ok ⟨[], [], []⟩
  else .ok (runBatch dl (sortDedup numbers))

/-- sortDedup preserves membership. -/
theorem mem_sortDedup (n : Nat) (l : List Nat) :
    n ∈ sortDedup l ↔ n ∈ l := by
  unfold sortDedup
  rw [List.mem_dedup, List.mem_insertionSort]

/-- Under an all-in-range selection, _download_by_numbers reaches the
batch loop on the sorted deduplicated index list. -/
theorem downloadByNumbers_ok (numbers : List Nat) (N : Nat)
    (confirm : Bool) (dl : Nat → DlOutcome)
    (hin : ∀ n ∈ numbers, 1 ≤ n ∧ n ≤ N) (hc : confirm = true) :
    downloadByNumbers numbers N confirm dl =
      .ok (runBatch dl (sortDedup numbers)) := by
  have hinv : numbers.filter (outOfRange N) = [] := by
    rw [List.filter_eq_nil_iff]
    intro a ha
    have := hin a ha
    simp [outOfRange]
    omega
  unfold downloadByNumbers
  rw [hinv, hc]
  simp

/-- C7: for every all-in-range, confirmed selection, the batch download
produces a run whose attempted indices are exactly the distinct
selected indices in strictly ascending order (each item once); each
index's outcome is recorded independently, a non-success never removing
later indices from the attempts; and the summary's success and failure
lists partition the attempts by outcome.  The attempted list does not
depend on the download outcomes at all. -/
theorem c7_batch_download (numbers : List Nat) (N : Nat)
    (dl : Nat → DlOutcome) (confirm : Bool)
    (hin : ∀ n ∈ numbers, 1 ≤ n ∧ n ≤ N) (hc : confirm = true) :
    ∃ run, downloadByNumbers numbers N confirm dl = .ok run ∧
      run.attempts.Sorted (· < ·) ∧
      (∀ n, n ∈ run.attempts ↔ n ∈ numbers) ∧
      run.successes = run.attempts.filter (fun n => decide (dl n = .success)) ∧
      run.failures =
        run.attempts.filter (fun n => !decide (dl n = .success)) ∧
      ∀ dl2 : Nat → DlOutcome, ∃ run2,
        downloadByNumbers numbers N confirm dl2 = .ok run2 ∧
        run2.attempts = run.attempts := by
  refine ⟨runBatch dl (sortDedup numbers),
    downloadByNumbers_ok numbers N confirm dl hin hc,
    sortDedup_sorted numbers,
    fun n => mem_sortDedup n numbers, rfl, rfl, ?_⟩
  intro dl2
  exact ⟨runBatch dl2 (sortDedup numbers),
    downloadByNumbers_ok numbers N confirm dl2 hin hc, rfl⟩

/-- C7 witness: the claim's example, indices [2, 4, 2] over a scope of
five items with item 2 failing and item 4 succeeding: the run attempts
exactly [2, 4] in that order, records 2 as the only failure and 4 as
the only success, and the attempted list is the same for every outcome
function. -/
theorem c7_batch_download_witness :
    ∃ run, downloadByNumbers [2, 4, 2] 5 true
        (fun n => if n = 2 then .failed else .success) = .ok run ∧
      run.attempts.Sorted (· < ·) ∧
      (∀ n, n ∈ run.attempts ↔ n ∈ [2, 4, 2]) ∧
      run.successes = run.attempts.filter
        (fun n => decide ((if n = 2 then DlOutcome.failed
          else DlOutcome.success) = .success)) ∧
      run.failures = run.attempts.filter
        (fun n => !decide ((if n = 2 then DlOutcome.failed
          else DlOutcome.success) = .success)) ∧
      ∀ dl2 : Nat → DlOutcome, ∃ run2,
        downloadByNumbers [2, 4, 2] 5 true dl2 = .ok run2 ∧
        run2.attempts = run.attempts :=
  c7_batch_download [2, 4, 2] 5
    (fun n => if n = 2 then .failed else .success) true
    (by decide) rfl

/-- C8: whenever a selection contains an index outside the scope bounds,
both batch entry points abort with the error listing exactly the
out-of-range indices (every listed index is a selected one outside the
bounds and vice versa) and produce no batch run, so nothing is
downloaded. -/
theorem c8_invalid_indices_abort (numbers : List Nat) (N : Nat)
    (dl : Nat → DlOutcome) (confirm : Bool)
    (hbad : ∃ n ∈ numbers, n < 1 ∨ N < n) :
    downloadByNumbers numbers N confirm dl =
      .error (numbers.filter (outOfRange N)) ∧
    downloadAlbumsFromArtist numbers N confirm dl =
      .error (numbers.filter (outOfRange N)) ∧
    (∀ m, m ∈ numbers.filter (outOfRange N) ↔
      m ∈ numbers ∧ (m < 1 ∨ N < m)) := by
  obtain ⟨n, hn, hout⟩ := hbad
  have hmem : n ∈ numbers.filter (outOfRange N) := by
    rw [List.mem_filter]
    refine ⟨hn, ?_⟩
    simp [outOfRange]
    omega
  have hne : (numbers.filter (outOfRange N)).isEmpty = false := by
    cases h : numbers.filter (outOfRange N) with
    | nil => rw [h] at hmem; cases hmem
    | cons a l => simp
  refine ⟨?_, ?_, ?_⟩
  · unfold downloadByNumbers
    rw [hne]
    rfl
  · unfold downloadAlbumsFromArtist
    rw [hne]
    rfl
  · intro m
    rw [List.mem_filter]
    simp [outOfRange]

/-- C8 witness: the selection [2, 7] over a scope of five items aborts
both entry points with exactly [7] reported invalid. -/
theorem c8_invalid_indices_abort_witness :
    downloadByNumbers [2, 7] 5 true (fun _ => .success) =
      .error ([2, 7].filter (outOfRange 5)) ∧
    downloadAlbumsFromArtist [2, 7] 5 true (fun _ => .success) =
      .error ([2, 7].filter (outOfRange 5)) ∧
    (∀ m, m ∈ [2, 7].filter (outOfRange 5) ↔
      m ∈ [2, 7] ∧ (m < 1 ∨ 5 < m)) :=
  c8_invalid_indices_abort [2, 7] 5 (fun _ => .success) true
    ⟨7, by decide, by omega⟩

/-! ### On-disk cache (api_client.py:101-132) -/

/-- The cache TTL constant, api_client.py:46 (3600 seconds). -/
def cacheTTL : Int := 3600

/-- A cache file on disk as its reader can observe it: a modification
time and either a parseable payload or unparseable (corrupted)
content, the latter modelled as a missing payload. -/
structure CacheFile (P : Type) where
  mtime : Int
  content : Option P

/-- Embeds APIClient._is_cache_valid (api_client.py:101-108): the file
must exist and its age, now minus the modification time, must be
strictly below the TTL. -/
def isCacheValid {P : Type} (file : Option (CacheFile P)) (now : Int) :
    Bool :=
  match file with
  | none => false
  | some f => decide (now - f.mtime < cacheTTL)

/-- Embeds APIClient._read_cache (api_client.py:110-122): an invalid
(missing or expired) file is a miss; a valid file is opened and parsed,
and a parse or I/O failure is caught and logged, producing a miss
rather than an error. -/
def readCache {P : Type} (fs : List Char → Option (CacheFile P))
    (key : List Char) (now : Int) : Option P :=
  if isCacheValid (fs key) now then
    match fs key with
    | some f => f.content
    | none => none
  else none

/-- Embeds APIClient._write_cache (api_client.py:124-132): serialize the
payload into the key's file, stamping the current time; an OS failure
is caught and logged, leaving the filesystem unchanged. -/
def writeCache {P : Type} (fs : List Char → Option (CacheFile P))
    (key : List Char) (data : P) (now : Int) (writeOk : Bool) :
    List Char → Option (CacheFile P) :=
  if writeOk then
    fun k => if k = key then some ⟨now, some data⟩ else fs k
  else fs

/-- C9: writing a payload and reading the same key back within the TTL
returns the stored payload; reading after the TTL has elapsed is a
miss; and a corrupted (unparseable) cache file is a miss even when
fresh, never a surfaced error. -/
theorem c9_cache_roundtrip {P : Type}
    (fs : List Char → Option (CacheFile P)) (key : List Char)
    (p : P) (t now : Int) :
    (now - t < cacheTTL →
      readCache (writeCache fs key p t true) key now = some p) ∧
    (cacheTTL ≤ now - t →
      readCache (writeCache fs key p t true) key now = none) ∧
    (∀ m : Int, fs key = some ⟨m, (none : Option P)⟩ →
      readCache fs key now = none) := by
  have hw : writeCache fs key p t true key = some ⟨t, some p⟩ := by
    simp [writeCache]
  refine ⟨?_, ?_, ?_⟩
  · intro h
    simp [readCache, isCacheValid, hw, h]
  · intro h
    simp [readCache, isCacheValid, hw]
    omega
  · intro m hm
    unfold readCache
    rw [hm]
    split
    · rfl
    · rfl

/-- C9 witness: over Nat payloads, writing 42 at time 0 and reading at
time 10 returns 42; reading at time 5000 misses; and a fresh corrupted
file at the key read at time 10 misses. -/
theorem c9_cache_roundtrip_witness :
    readCache (writeCache (fun _ => none) "k".toList (42 : Nat) 0 true)
      "k".toList 10 = some 42 ∧
    readCache (writeCache (fun _ => none) "k".toList (42 : Nat) 0 true)
      "k".toList 5000 = none ∧
    readCache
      (fun k => if k = "k".toList then
        some (⟨0, (none : Option Nat)⟩ : CacheFile Nat) else none)
      "k".toList 10 = none :=
  ⟨(c9_cache_roundtrip (fun _ => none) "k".toList 42 0 10).1
      (by norm_num [cacheTTL]),
   (c9_cache_roundtrip (fun _ => none) "k".toList 42 0 5000).2.1
      (by norm_num [cacheTTL]),
   (c9_cache_roundtrip
      (fun k => if k = "k".toList then
        some (⟨0, (none : Option Nat)⟩ : CacheFile Nat) else none)
      "k".toList 42 0 10).2.2 0 (by simp)⟩

/-! ### Search-query validation (error_handler.py:208-224) -/

/-- The characters removed by the sanitizer at error_handler.py:222,
the regular expression class of angle brackets, double quote
(codepoint 34) and single quote (codepoint 39). -/
def removedChar (c : Char) : Bool :=
  c = '<' || c = '>' || c = Char.ofNat 34 || c = Char.ofNat 39

/-- Embeds InputValidator.validate_search_query
(error_handler.py:208-224): an empty or whitespace-only query raises a
ValidationError, as does a stripped query longer than 500 characters;
otherwise the stripped query is returned with every removed-class
character deleted. -/
def validateSearchQuery (q : List Char) : Except Unit (List Char) :=
  if (pyStrip q).isEmpty then .error ()
  else if 500 < (pyStrip q).length then .error ()
  else .ok ((pyStrip q).filter (fun c => !removedChar c))

/-- Stripping yields the empty string exactly on all-whitespace (or
empty) input. -/
theorem pyStrip_eq_nil_iff (q : List Char) :
    pyStrip q = [] ↔ ∀ c ∈ q, isPySpace c = true := by
  unfold pyStrip
  rw [List.reverse_eq_nil_iff, List.dropWhile_eq_nil_iff]
  constructor
  · intro h c hc
    rw [← List.takeWhile_append_dropWhile (p := isPySpace) (l := q)] at hc
    rcases List.mem_append.mp hc with h1 | h2
    · exact List.mem_takeWhile_imp h1
    · exact h c (List.mem_reverse.mpr h2)
  · intro h c hc
    exact h c ((List.dropWhile_sublist _).subset (List.mem_reverse.mp hc))

/-- C10: search-query validation fails exactly on an empty or
whitespace-only query or one whose stripped form exceeds 500
characters; any other query is returned stripped of surrounding
whitespace with every occurrence of the angle-bracket and quote
characters silently removed. -/
theorem c10_validate_search_query (q : List Char) :
    (validateSearchQuery q = .error () ↔
      (∀ c ∈ q, isPySpace c = true) ∨ 500 < (pyStrip q).length) ∧
    (¬ ((∀ c ∈ q, isPySpace c = true) ∨ 500 < (pyStrip q).length) →
      validateSearchQuery q =
        .ok ((pyStrip q).filter (fun c => !removedChar c))) := by
  constructor
  · constructor
    · intro h
      unfold validateSearchQuery at h
      split at h
      · left
        exact (pyStrip_eq_nil_iff q).mp (List.isEmpty_iff.mp (by assumption))
      · split at h
        · right
          assumption
        · cases h
    · intro h
      unfold validateSearchQuery
      rcases h with h | h
      · rw [if_pos (List.isEmpty_iff.mpr ((pyStrip_eq_nil_iff q).mpr h))]
      · by_cases he : (pyStrip q).isEmpty
        · simp [he]
        · simp [he, h]
  · intro h
    push_neg at h
    obtain ⟨h1, h2⟩ := h
    have he : (pyStrip q).isEmpty = false := by
      rw [← Bool.not_eq_true, List.isEmpty_iff]
      intro hc
      obtain ⟨c, hc1, hc2⟩ := h1
      exact hc2 ((pyStrip_eq_nil_iff q).mp hc c hc1)
    simp [validateSearchQuery, he, Nat.not_lt.mpr h2]

/-- C10 witness: the query with surrounding spaces and an embedded
angle bracket, sp a < b sp, validates to ab with the space trimmed and
the bracket removed, via the theorem's second component. -/
theorem c10_validate_search_query_witness :
    validateSearchQuery " a<b ".toList =
      .ok ((pyStrip " a<b ".toList).filter (fun c => !removedChar c)) :=
  (c10_validate_search_query " a<b ".toList).2 (by decide)

/-- C1: evaluation of the code at the failing input.  The backend raises a
non-quality error at the 320kbps tier (code 3) and would succeed at the
128kbps tier (code 1).  The claim (and the source's own comment at
deemix_client.py:451) says the whole attempt must abort at tier 3 with no
further tiers tried; the code instead continues, tries tier 1 too (tried
list [3, 1]) and reports overall success, because both branches of the
except-handler in _try_quality return False. -/
theorem c1_nonquality_error_does_not_abort :
    attemptDownload c1Backend 3 = (true, [3, 1]) ∧
    tryQuality c1Backend 3 = false ∧ c1Backend 3 = .raised false := by
  decide

/-- C2 counterexample: with preferred tier 128 the claim predicts the
deduplicated sequence beginning with the preferred tier, [1, 3]
(128kbps first, then 320kbps), but the code produces [3, 1]. -/
theorem c2_preferred_128_not_first :
    attemptQualities (qualityToCode "128") = [3, 1] ∧
    specQualityOrder (qualityToCode "128") = [1, 3] ∧
    attemptQualities (qualityToCode "128") ≠
      specQualityOrder (qualityToCode "128") := by
  decide

/-- C2 amended: the attempted tier list is the fixed fallback sequence
[320, 128] with the configured preferred tier prepended only when it is
distinct from both fallback tiers.  So preferred FLAC gives
[FLAC, 320, 128] and preferred 320 gives [320, 128] as the claim says,
but preferred 128 gives [320, 128] - 128 is not moved to the front. -/
theorem c2_tier_order :
    attemptQualities (qualityToCode "FLAC") = [9, 3, 1] ∧
    attemptQualities (qualityToCode "320") = [3, 1] ∧
    attemptQualities (qualityToCode "128") = [3, 1] ∧
    attemptQualities (qualityToCode "FLAC") = specQualityOrder 9 ∧
    attemptQualities (qualityToCode "320") = specQualityOrder 3 := by
  decide

end Dmx
